import Mathlib

/-!
Verification of the orbital-mechanics and impact-physics core of the
meteor-madness repository.

The numeric core appears three times in the sources
(HeliocentricOrbits.tsx / HeliocentricCesium3D, ImpactorLab3D.tsx,
DeflectionLab3D).  Functions that involve only field operations and
comparisons are embedded over the rationals, so they stay executable;
functions that involve trigonometry and pi are embedded over the reals
with the exact-arithmetic semantics of the same formulas.
-/

namespace MeteorMadness

/-- Source helper `clamp(n, lo, hi) = Math.max(lo, Math.min(hi, n))`,
present identically in every copy of the core. -/
def clamp {α : Type} [LinearOrder α] (n lo hi : α) : α :=
  max lo (min hi n)

theorem le_clamp {α : Type} [LinearOrder α] (n lo hi : α) : lo ≤ clamp n lo hi :=
  le_max_left _ _

theorem clamp_le {α : Type} [LinearOrder α] (n lo hi : α) (h : lo ≤ hi) :
    clamp n lo hi ≤ hi :=
  max_le h (min_le_left _ _)

theorem clamp_eq_self {α : Type} [LinearOrder α] (n lo hi : α)
    (h1 : lo ≤ n) (h2 : n ≤ hi) : clamp n lo hi = n := by
  unfold clamp
  rw [min_eq_right h2, max_eq_right h1]

/-! ### Rational layer: angle wrapping, mission evaluation, crater estimate -/

/-- Integer part of a rational, truncated toward zero, as produced by the
JavaScript `%` operator on the quotient. -/
def jsTrunc (q : ℚ) : ℤ :=
  if 0 ≤ q then ⌊q⌋ else ⌈q⌉

/-- JavaScript remainder `d % m`: the remainder carries the sign of the
dividend and has magnitude below the divisor. -/
def jsMod (d m : ℚ) : ℚ :=
  d - m * (jsTrunc (d / m) : ℚ)

/-- `wrapDeg` from HeliocentricOrbits.tsx (and HeliocentricCesium3D):
reduce modulo 360 with the JavaScript `%`, then shift a negative
remainder up by 360. -/
def wrapDeg (d : ℚ) : ℚ :=
  if jsMod d 360 < 0 then jsMod d 360 + 360 else jsMod d 360

/-- Success threshold constant `SAFE_MISS_KM` of DeflectionLab3D. -/
def SAFE_MISS_KM : ℚ := 15000

/-- `evaluateMission` of DeflectionLab3D: a missing or non-finite miss
distance (modelled as `none`) produces no classification; otherwise the
mission succeeds exactly when `missKm >= SAFE_MISS_KM`. -/
def evaluateMission (missKm : Option ℚ) : Option Bool :=
  match missKm with
  | none => none
  | some m => some (decide (SAFE_MISS_KM ≤ m))

/-- JavaScript `Math.round`: round half toward positive infinity. -/
def jsRound (q : ℚ) : ℤ :=
  ⌊q + 1 / 2⌋

/-- `estimateCraterKm` from ImpactorLab3D.tsx:
`Math.max(5, Math.round(diameterKm * (0.6 + velKps / 50)))`. -/
def estimateCraterKm (diameterKm velKps : ℚ) : ℚ :=
  max 5 ((jsRound (diameterKm * (0.6 + velKps / 50)) : ℚ))

/-! ### Rational layer: per-body processing with unusable-element skipping -/

/-- Orbital element fields as read by the components: each field is the
result of `Number(...)` on upstream data, with `none` standing for an
absent or non-finite value. -/
structure OrbitalData where
  semi_major_axis : Option ℚ
  eccentricity : Option ℚ
  mean_anomaly : Option ℚ
  mean_motion : Option ℚ
  epoch_osculation : Option ℚ

/-- A row of the body list handed to the orbit views. -/
structure ApproachRow where
  id : String
  name : String
  hazardous : Bool
  dia_km : Option ℚ
  orbital_data : Option OrbitalData
  approach_epoch : Option ℚ

/-- The guard both orbit views apply before drawing a body:
`if (!isFinite(a) || !isFinite(e) || a <= 0) continue`.  A body passes
exactly when both elements are present/finite and the semi-major axis is
positive. -/
def usableOrbit (od : OrbitalData) : Option (ℚ × ℚ) :=
  match od.semi_major_axis with
  | none => none
  | some a =>
    match od.eccentricity with
    | none => none
    | some e => if 0 < a then some (a, e) else none

/-- Per-body step of the drawing loop: `continue` (that is, `none`) on a
missing `orbital_data` or on unusable elements, otherwise emit the orbit
data used for the ellipse. -/
def bodyOrbit (b : ApproachRow) : Option (String × ℚ × ℚ) :=
  match b.orbital_data with
  | none => none
  | some od => (usableOrbit od).map fun p => (b.id, p.1, p.2)

/-- The drawing loop over the whole body list: each body is processed
independently and skipped bodies contribute nothing. -/
def drawOrbits (items : List ApproachRow) : List (String × ℚ × ℚ) :=
  items.filterMap bodyOrbit

/-! ### Theorems for the rational layer -/

theorem wrapDeg_neg_ten : wrapDeg (-10) = 350 := by
  have hc : ⌈((-10 : ℚ) / 360)⌉ = 0 := by
    rw [Int.ceil_eq_iff]
    constructor <;> norm_num
  have ht : jsTrunc ((-10 : ℚ) / 360) = 0 := by
    unfold jsTrunc
    rw [if_neg (by norm_num), hc]
  unfold wrapDeg jsMod
  rw [ht]
  norm_num

theorem wrapDeg_370 : wrapDeg 370 = 10 := by
  have hc : ⌊((370 : ℚ) / 360)⌋ = 1 := by
    rw [Int.floor_eq_iff]
    constructor <;> norm_num
  have ht : jsTrunc ((370 : ℚ) / 360) = 1 := by
    unfold jsTrunc
    rw [if_pos (by norm_num), hc]
  unfold wrapDeg jsMod
  rw [ht]
  norm_num

/-- C7: for every rational degree value `d`, `wrapDeg d` lies in
`[0, 360)`; in particular `wrapDeg (-10) = 350` and `wrapDeg 370 = 10`. -/
theorem wrapDeg_range :
    (∀ d : ℚ, 0 ≤ wrapDeg d ∧ wrapDeg d < 360) ∧
      wrapDeg (-10) = 350 ∧ wrapDeg 370 = 10 := by
  refine ⟨fun d => ?_, wrapDeg_neg_ten, wrapDeg_370⟩
  rcases le_or_lt 0 (d / 360) with hq | hq
  · have hfl : jsMod d 360 = 360 * (d / 360 - (⌊d / 360⌋ : ℚ)) := by
      unfold jsMod jsTrunc
      rw [if_pos hq]
      field_simp
    have h1 : (⌊d / 360⌋ : ℚ) ≤ d / 360 := Int.floor_le _
    have h2 : d / 360 < (⌊d / 360⌋ : ℚ) + 1 := Int.lt_floor_add_one _
    have hx0 : 0 ≤ jsMod d 360 := by rw [hfl]; nlinarith
    have hx1 : jsMod d 360 < 360 := by rw [hfl]; nlinarith
    unfold wrapDeg
    rw [if_neg (not_lt.mpr hx0)]
    exact ⟨hx0, hx1⟩
  · have hce : jsMod d 360 = 360 * (d / 360 - (⌈d / 360⌉ : ℚ)) := by
      unfold jsMod jsTrunc
      rw [if_neg (not_le.mpr hq)]
      field_simp
    have h1 : d / 360 ≤ (⌈d / 360⌉ : ℚ) := Int.le_ceil _
    have h2 : (⌈d / 360⌉ : ℚ) < d / 360 + 1 := Int.ceil_lt_add_one _
    have hlow : -360 < jsMod d 360 := by rw [hce]; nlinarith
    have hhi : jsMod d 360 ≤ 0 := by rw [hce]; nlinarith
    unfold wrapDeg
    rcases lt_or_le (jsMod d 360) 0 with hx | hx
    · rw [if_pos hx]
      constructor <;> linarith
    · rw [if_neg (not_lt.mpr hx)]
      constructor <;> linarith

/-- C4: a finite miss distance is classified a success exactly when it is
at least `SAFE_MISS_KM = 15000`; in particular 15000 km succeeds and
14999 km fails, and a missing miss distance yields no classification. -/
theorem mission_classification :
    (∀ m : ℚ, evaluateMission (some m) = some true ↔ SAFE_MISS_KM ≤ m) ∧
      SAFE_MISS_KM = 15000 ∧
      evaluateMission (some 15000) = some true ∧
      evaluateMission (some 14999) = some false ∧
      evaluateMission none = none := by
  refine ⟨fun m => ?_, rfl, by decide, by decide, rfl⟩
  simp [evaluateMission]

/-- C8: the toy crater estimate is always an integer number of
kilometers and is at least 5. -/
theorem estimateCraterKm_spec :
    ∀ diameterKm velKps : ℚ, 5 ≤ estimateCraterKm diameterKm velKps ∧
      ∃ n : ℤ, estimateCraterKm diameterKm velKps = (n : ℚ) := by
  intro d v
  refine ⟨le_max_left _ _, ?_⟩
  unfold estimateCraterKm
  rcases le_total 5 ((jsRound (d * (0.6 + v / 50)) : ℚ)) with h | h
  · exact ⟨jsRound (d * (0.6 + v / 50)), max_eq_right h⟩
  · exact ⟨5, by rw [max_eq_left h]; norm_num⟩

/-- C9: a body whose semi-major axis or eccentricity is absent or
non-finite, or whose semi-major axis is not positive, contributes no
orbit output, and its presence splits cleanly out of the batch: the other
bodies still produce exactly their outputs. -/
theorem skip_unusable_bodies (l1 l2 : List ApproachRow) (bad : ApproachRow)
    (h : ∀ od, bad.orbital_data = some od →
        od.semi_major_axis = none ∨ od.eccentricity = none ∨
          ∃ a, od.semi_major_axis = some a ∧ a ≤ 0) :
    bodyOrbit bad = none ∧
      drawOrbits (l1 ++ bad :: l2) = drawOrbits l1 ++ drawOrbits l2 := by
  have hb : bodyOrbit bad = none := by
    cases hod : bad.orbital_data with
    | none => simp [bodyOrbit, hod]
    | some od =>
      rcases h od hod with h1 | h1 | ⟨a, ha, ha0⟩
      · simp [bodyOrbit, hod, usableOrbit, h1]
      · cases ha : od.semi_major_axis <;>
          simp [bodyOrbit, hod, usableOrbit, ha, h1]
      · cases he : od.eccentricity <;>
          simp [bodyOrbit, hod, usableOrbit, ha, he, not_lt.mpr ha0]
  refine ⟨hb, ?_⟩
  unfold drawOrbits
  rw [List.filterMap_append]
  simp [List.filterMap_cons, hb]

/-- A body with usable elements, for exercising the batch split. -/
def goodRowA : ApproachRow :=
  ⟨"a", "Alpha", false, some 1, some ⟨some 2, some (1 / 2), none, none, none⟩, none⟩

/-- A second body with usable elements. -/
def goodRowB : ApproachRow :=
  ⟨"b", "Beta", true, none, some ⟨some 3, some (1 / 4), some 10, some 1, some 2461000⟩, none⟩

/-- A body whose semi-major axis is absent or non-finite. -/
def badRow : ApproachRow :=
  ⟨"x", "Bad", false, none, some ⟨none, some (1 / 2), none, none, none⟩, none⟩

/-- Witness for C9: the split theorem applied to a concrete batch whose
middle body has an unusable semi-major axis. -/
theorem skip_unusable_bodies_witness :
    bodyOrbit badRow = none ∧
      drawOrbits ([goodRowA] ++ badRow :: [goodRowB]) =
        drawOrbits [goodRowA] ++ drawOrbits [goodRowB] :=
  skip_unusable_bodies [goodRowA] [goodRowB] badRow
    (fun od hod => by
      injection hod with h
      rw [← h]
      exact Or.inl rfl)

/-! ### Real layer: constants and the Kepler solver -/

/-- Degree-to-radian factor `DEG = Math.PI / 180`. -/
noncomputable def DEG : ℝ := Real.pi / 180

/-- Scene scale: one astronomical unit in scene units. -/
def AU_TO_SCENE : ℝ := 1000000

/-- Kilometres per astronomical unit. -/
def KM_PER_AU : ℝ := 149597870.7

/-- Number of days in the model year of the labs. -/
def EARTH_PERIOD_DAYS : ℝ := 365.25

/-- Mean motion of the circular model Earth, in radians per day. -/
noncomputable def N_EARTH : ℝ := 2 * Real.pi / EARTH_PERIOD_DAYS

/-- Angular position of the model Earth after `d` days. -/
noncomputable def earthAngleAt (daysFromStart : ℝ) : ℝ := N_EARTH * daysFromStart

/-- One Newton update `f(E)/fp(E)` of the Kepler solver, with
`f(E) = E - e sin E - M` and `fp(E) = 1 - e cos E`. -/
noncomputable def keplerStep (M e E : ℝ) : ℝ :=
  (E - e * Real.sin E - M) / (1 - e * Real.cos E)

/-- The solver loop: at most `fuel` Newton updates, stopping early once
an update is smaller than `1e-10` in magnitude (the update is applied
before the loop breaks, as in the source). -/
noncomputable def solveKeplerGo (M e : ℝ) : ℕ → ℝ → ℝ
  | 0, E => E
  | fuel + 1, E =>
    if |keplerStep M e E| < 1e-10 then E - keplerStep M e E
    else solveKeplerGo M e fuel (E - keplerStep M e E)

/-- `solveKepler` (DeflectionLab3D) = `eccentricAnomalyFromMean`
(HeliocentricOrbits) = `solveE` (HeliocentricCesium3D): Newton iteration
from the initial guess `E = M`, capped at 15 iterations. -/
noncomputable def solveKepler (M e : ℝ) : ℝ := solveKeplerGo M e 15 M

theorem solveKeplerGo_step_small (M e E : ℝ) (fuel : ℕ)
    (h : |keplerStep M e E| < 1e-10) :
    solveKeplerGo M e (fuel + 1) E = E - keplerStep M e E := by
  rw [solveKeplerGo, if_pos h]

theorem keplerStep_self_zero (e : ℝ) : keplerStep 0 e 0 = 0 := by
  simp [keplerStep]

theorem solveKepler_zero (e : ℝ) : solveKepler 0 e = 0 := by
  have h15 : (15 : ℕ) = 14 + 1 := by norm_num
  unfold solveKepler
  rw [h15, solveKeplerGo_step_small 0 e 0 14 (by rw [keplerStep_self_zero]; norm_num),
    keplerStep_self_zero]
  norm_num

/-! ### Real layer: atan2 and the true anomaly -/

/-- JavaScript `Math.atan2(y, x)`. -/
noncomputable def atan2 (y x : ℝ) : ℝ :=
  if 0 < x then Real.arctan (y / x)
  else if x < 0 then
    if 0 ≤ y then Real.arctan (y / x) + Real.pi else Real.arctan (y / x) - Real.pi
  else
    if 0 < y then Real.pi / 2
    else if y < 0 then -(Real.pi / 2)
    else 0

theorem atan2_zero_pos (y x : ℝ) (hy : y = 0) (hx : 0 < x) : atan2 y x = 0 := by
  unfold atan2
  rw [if_pos hx, hy, zero_div, Real.arctan_zero]

theorem sqrt_factor_pos (y x : ℝ) (hx : 0 < x) :
    Real.sqrt (x ^ 2 + y ^ 2) = x * Real.sqrt (1 + (y / x) ^ 2) := by
  have h1 : x ^ 2 * (1 + (y / x) ^ 2) = x ^ 2 + y ^ 2 := by
    field_simp
  rw [← h1, Real.sqrt_mul (sq_nonneg x), Real.sqrt_sq hx.le]

theorem sqrt_factor_neg (y x : ℝ) (hx : x < 0) :
    Real.sqrt (x ^ 2 + y ^ 2) = -x * Real.sqrt (1 + (y / x) ^ 2) := by
  have hxne : x ≠ 0 := ne_of_lt hx
  have h1 : (-x) ^ 2 * (1 + (y / x) ^ 2) = x ^ 2 + y ^ 2 := by
    field_simp
  rw [← h1, Real.sqrt_mul (sq_nonneg (-x)), Real.sqrt_sq (by linarith)]

theorem sqrt_one_add_sq_pos (t : ℝ) : 0 < Real.sqrt (1 + t ^ 2) :=
  Real.sqrt_pos.mpr (by positivity)

theorem cos_atan2 (y x : ℝ) (h : x ≠ 0 ∨ y ≠ 0) :
    Real.cos (atan2 y x) = x / Real.sqrt (x ^ 2 + y ^ 2) := by
  unfold atan2
  rcases lt_trichotomy x 0 with hx | hx | hx
  · rw [if_neg (by linarith), if_pos hx]
    have hs := sqrt_factor_neg y x hx
    have hpos := sqrt_one_add_sq_pos (y / x)
    have hxne : x ≠ 0 := ne_of_lt hx
    rcases le_or_lt 0 y with hy | hy
    · rw [if_pos hy, Real.cos_add_pi, Real.cos_arctan, hs, neg_mul, div_neg,
        div_mul_eq_div_div, div_self hxne]
    · rw [if_neg (not_le.mpr hy), Real.cos_sub_pi, Real.cos_arctan, hs, neg_mul,
        div_neg, div_mul_eq_div_div, div_self hxne]
  · subst hx
    have hy : y ≠ 0 := by
      rcases h with h | h
      · exact absurd rfl h
      · exact h
    rw [if_neg (lt_irrefl 0), if_neg (lt_irrefl 0)]
    rcases lt_trichotomy y 0 with hy0 | hy0 | hy0
    · rw [if_neg (by linarith), if_pos hy0, Real.cos_neg, Real.cos_pi_div_two,
        zero_div]
    · exact absurd hy0 hy
    · rw [if_pos hy0, Real.cos_pi_div_two, zero_div]
  · rw [if_pos hx, Real.cos_arctan, sqrt_factor_pos y x hx,
      div_mul_eq_div_div, div_self (ne_of_gt hx)]

theorem sin_atan2 (y x : ℝ) (h : x ≠ 0 ∨ y ≠ 0) :
    Real.sin (atan2 y x) = y / Real.sqrt (x ^ 2 + y ^ 2) := by
  unfold atan2
  rcases lt_trichotomy x 0 with hx | hx | hx
  · rw [if_neg (by linarith), if_pos hx]
    have hs := sqrt_factor_neg y x hx
    have hpos := sqrt_one_add_sq_pos (y / x)
    have hxne : x ≠ 0 := ne_of_lt hx
    rcases le_or_lt 0 y with hy | hy
    · rw [if_pos hy, Real.sin_add_pi, Real.sin_arctan, hs, neg_mul, div_neg,
        div_mul_eq_div_div]
    · rw [if_neg (not_le.mpr hy), Real.sin_sub_pi, Real.sin_arctan, hs, neg_mul,
        div_neg, div_mul_eq_div_div]
  · subst hx
    have hy : y ≠ 0 := by
      rcases h with h | h
      · exact absurd rfl h
      · exact h
    rw [if_neg (lt_irrefl 0), if_neg (lt_irrefl 0)]
    have h02 : (0 : ℝ) ^ 2 + y ^ 2 = y ^ 2 := by ring
    rcases lt_trichotomy y 0 with hy0 | hy0 | hy0
    · rw [if_neg (by linarith), if_pos hy0, Real.sin_neg, Real.sin_pi_div_two,
        h02]
      rw [show Real.sqrt (y ^ 2) = -y from by
        rw [Real.sqrt_sq_eq_abs, abs_of_neg hy0]]
      field_simp
    · exact absurd hy0 hy
    · rw [if_pos hy0, Real.sin_pi_div_two, h02]
      rw [show Real.sqrt (y ^ 2) = y from by
        rw [Real.sqrt_sq_eq_abs, abs_of_pos hy0]]
      field_simp
  · rw [if_pos hx, Real.sin_arctan, sqrt_factor_pos y x hx, div_mul_eq_div_div]

/-- True anomaly from the eccentric anomaly as all three copies compute
it: `nu = atan2(sqrt(1 - e*e) * sin E, cos E - e)`. -/
noncomputable def nuFromE (e E : ℝ) : ℝ :=
  atan2 (Real.sqrt (1 - e * e) * Real.sin E) (Real.cos E - e)

theorem one_sub_ecos_pos (e E : ℝ) (h0 : 0 ≤ e) (h1 : e < 1) :
    0 < 1 - e * Real.cos E := by
  nlinarith [Real.cos_le_one E, Real.neg_one_le_cos E]

theorem norm_perifocal (e E : ℝ) (h0 : 0 ≤ e) (h1 : e < 1) :
    Real.sqrt ((Real.cos E - e) ^ 2 + (Real.sqrt (1 - e * e) * Real.sin E) ^ 2)
      = 1 - e * Real.cos E := by
  have hs : (Real.sqrt (1 - e * e)) ^ 2 = 1 - e * e :=
    Real.sq_sqrt (by nlinarith)
  have hpy := Real.sin_sq_add_cos_sq E
  have hexp : (Real.cos E - e) ^ 2 + (Real.sqrt (1 - e * e) * Real.sin E) ^ 2
      = (1 - e * Real.cos E) ^ 2 := by
    rw [mul_pow, hs]
    linear_combination (1 - e * e) * hpy
  rw [hexp, Real.sqrt_sq (one_sub_ecos_pos e E h0 h1).le]

theorem perifocal_ne_zero (e E : ℝ) (h0 : 0 ≤ e) (h1 : e < 1) :
    Real.cos E - e ≠ 0 ∨ Real.sqrt (1 - e * e) * Real.sin E ≠ 0 := by
  by_contra hcon
  push_neg at hcon
  obtain ⟨hc, hsz⟩ := hcon
  have hsq : 0 < 1 - e * e := by nlinarith
  have hsqrt : Real.sqrt (1 - e * e) ≠ 0 := ne_of_gt (Real.sqrt_pos.mpr hsq)
  have hsin : Real.sin E = 0 := by
    rcases mul_eq_zero.mp hsz with h | h
    · exact absurd h hsqrt
    · exact h
  have hpy := Real.sin_sq_add_cos_sq E
  have hce : Real.cos E = e := by linarith [sub_eq_zero.mp hc]
  nlinarith

theorem cos_nuFromE (e E : ℝ) (h0 : 0 ≤ e) (h1 : e < 1) :
    Real.cos (nuFromE e E) = (Real.cos E - e) / (1 - e * Real.cos E) := by
  unfold nuFromE
  rw [cos_atan2 _ _ (perifocal_ne_zero e E h0 h1), norm_perifocal e E h0 h1]

theorem sin_nuFromE (e E : ℝ) (h0 : 0 ≤ e) (h1 : e < 1) :
    Real.sin (nuFromE e E)
      = Real.sqrt (1 - e * e) * Real.sin E / (1 - e * Real.cos E) := by
  unfold nuFromE
  rw [sin_atan2 _ _ (perifocal_ne_zero e E h0 h1), norm_perifocal e E h0 h1]

/-! ### Real layer: element-to-position transform -/

/-- A scene-scaled position together with the true anomaly, as returned
by `posFromElements` of DeflectionLab3D. -/
structure ScenePos where
  x : ℝ
  y : ℝ
  z : ℝ
  nu : ℝ

/-- Body of `posFromElements` once the eccentric anomaly is known: the
perifocal position rotated by the matrix built from the three angles and
scaled to scene units. -/
noncomputable def posFromElementsE (aAU e iDeg OmegaDeg omegaDeg E : ℝ) : ScenePos :=
  let i := iDeg * DEG
  let O := OmegaDeg * DEG
  let w := omegaDeg * DEG
  let cO := Real.cos O
  let sO := Real.sin O
  let ci := Real.cos i
  let si := Real.sin i
  let cw := Real.cos w
  let sw := Real.sin w
  let R11 := cO * cw - sO * sw * ci
  let R12 := -cO * sw - sO * cw * ci
  let R21 := sO * cw + cO * sw * ci
  let R22 := -sO * sw + cO * cw * ci
  let R31 := sw * si
  let R32 := cw * si
  let cosE := Real.cos E
  let sinE := Real.sin E
  let rAU := aAU * (1 - e * cosE)
  let nu := atan2 (Real.sqrt (1 - e * e) * sinE) (cosE - e)
  let xpf := rAU * Real.cos nu
  let ypf := rAU * Real.sin nu
  ⟨(R11 * xpf + R12 * ypf) * AU_TO_SCENE,
    (R21 * xpf + R22 * ypf) * AU_TO_SCENE,
    (R31 * xpf + R32 * ypf) * AU_TO_SCENE, nu⟩

/-- `posFromElements(aAU, e, iDeg, OmegaDeg, omegaDeg, Mdeg)`: solve
Kepler for `M = Mdeg * DEG`, then transform. -/
noncomputable def posFromElements (aAU e iDeg OmegaDeg omegaDeg Mdeg : ℝ) : ScenePos :=
  posFromElementsE aAU e iDeg OmegaDeg omegaDeg (solveKepler (Mdeg * DEG) e)

theorem posE_planar_x (a e E : ℝ) :
    (posFromElementsE a e 0 0 0 E).x
      = a * (1 - e * Real.cos E) * Real.cos (nuFromE e E) * AU_TO_SCENE := by
  simp [posFromElementsE, nuFromE, DEG]

theorem posE_planar_y (a e E : ℝ) :
    (posFromElementsE a e 0 0 0 E).y
      = a * (1 - e * Real.cos E) * Real.sin (nuFromE e E) * AU_TO_SCENE := by
  simp [posFromElementsE, nuFromE, DEG]

theorem posE_planar_z (a e E : ℝ) : (posFromElementsE a e 0 0 0 E).z = 0 := by
  simp [posFromElementsE, DEG]

theorem posE_nu (a e E : ℝ) : (posFromElementsE a e 0 0 0 E).nu = nuFromE e E := by
  simp [posFromElementsE, nuFromE, DEG]

/-- Polar conic radius `radialFromEllipse` of ImpactorLab3D (inlined in
the other two copies). -/
noncomputable def radialFromEllipse (a e nu : ℝ) : ℝ :=
  a * (1 - e * e) / (1 + e * Real.cos nu)

/-- Speed-to-eccentricity heuristic `eccFromVel`. -/
noncomputable def eccFromVel (velKps : ℝ) : ℝ :=
  clamp (((velKps - 5) / (65 - 5)) * 0.6 + 0.1) 0.05 0.75

theorem eccFromVel_lower (v : ℝ) : 0.05 ≤ eccFromVel v := le_clamp _ _ _

theorem eccFromVel_upper (v : ℝ) : eccFromVel v ≤ 0.75 :=
  clamp_le _ _ _ (by norm_num)

/-- `massFromDiameter`: sphere-volume mass from a diameter in km and a
density in kg per cubic metre. -/
noncomputable def massFromDiameter (diameterKm density : ℝ) : ℝ :=
  (4 / 3) * Real.pi * (diameterKm * 1000 / 2) * (diameterKm * 1000 / 2)
    * (diameterKm * 1000 / 2) * density

/-- `toMillis(years, months, days)` of the two labs. -/
def toMillis (years months days : ℝ) : ℝ :=
  (years * 365.25 + months * 30 + days) * 86400000

/-- Euclidean scene distance between a computed position and a point,
exactly as the miss-distance code computes it. -/
noncomputable def sceneDist (p : ScenePos) (qx qy qz : ℝ) : ℝ :=
  Real.sqrt ((p.x - qx) ^ 2 + (p.y - qy) ^ 2 + (p.z - qz) ^ 2)

/-! ### Claims about the solver and the radius round-trip -/

/-- C6: the radius computed from the eccentric anomaly, `a (1 - e cos E)`,
agrees exactly with the polar conic radius evaluated at the true anomaly
`nu = atan2(sqrt(1 - e^2) sin E, cos E - e)` derived from the same
eccentric anomaly; exact equality in particular gives the claimed 1e-6
relative agreement at `a = 1.5`, `e = 0.3`, `M = 45` degrees. -/
theorem radius_roundtrip (a e M : ℝ) (h0 : 0 ≤ e) (h1 : e ≤ 0.95) :
    radialFromEllipse a e (nuFromE e (solveKepler M e))
      = a * (1 - e * Real.cos (solveKepler M e)) := by
  have h1x : e < 1 := lt_of_le_of_lt h1 (by norm_num)
  set E := solveKepler M e with hE
  have hpos := one_sub_ecos_pos e E h0 h1x
  have he2 : 1 - e * e ≠ 0 := by nlinarith
  unfold radialFromEllipse
  rw [cos_nuFromE e E h0 h1x]
  have hden : 1 + e * ((Real.cos E - e) / (1 - e * Real.cos E))
      = (1 - e * e) / (1 - e * Real.cos E) := by
    field_simp
    ring
  rw [hden]
  field_simp
  ring

/-- Witness for C6 at the instance named by the specification. -/
theorem radius_roundtrip_witness :
    (0 : ℝ) ≤ 0.3 ∧ (0.3 : ℝ) ≤ 0.95 ∧
      radialFromEllipse 1.5 0.3 (nuFromE 0.3 (solveKepler (Real.pi / 4) 0.3))
        = 1.5 * (1 - 0.3 * Real.cos (solveKepler (Real.pi / 4) 0.3)) :=
  ⟨by norm_num, by norm_num,
    radius_roundtrip 1.5 0.3 (Real.pi / 4) (by norm_num) (by norm_num)⟩

/-- A full (unconditional) Newton update of the solver. -/
noncomputable def newtonStep (M e E : ℝ) : ℝ := E - keplerStep M e E

theorem solveKeplerGo_iterates (M e : ℝ) :
    ∀ (fuel : ℕ) (E : ℝ), ∃ k ≤ fuel,
      solveKeplerGo M e fuel E = (newtonStep M e)^[k] E := by
  intro fuel
  induction fuel with
  | zero => exact fun E => ⟨0, le_refl 0, rfl⟩
  | succ n ih =>
    intro E
    rw [solveKeplerGo]
    by_cases h : |keplerStep M e E| < 1e-10
    · refine ⟨1, by omega, ?_⟩
      rw [if_pos h, Function.iterate_one]
      rfl
    · obtain ⟨k, hk, heq⟩ := ih (E - keplerStep M e E)
      refine ⟨k + 1, by omega, ?_⟩
      rw [if_neg h, heq, Function.iterate_succ_apply]
      rfl

/-- C10: for eccentricities in [0, 0.99] the Newton denominator
`1 - e cos E` is at least 0.01 at every real iterate, so each division of
the solver divides by a positive quantity; and the solver is a finite
computation whose result is reached after at most 15 Newton updates from
the initial guess `E = M`. -/
theorem kepler_solver_safety (M e : ℝ) (h0 : 0 ≤ e) (h1 : e ≤ 0.99) :
    (∀ E : ℝ, 0.01 ≤ 1 - e * Real.cos E) ∧
      ∃ k ≤ 15, solveKepler M e = (newtonStep M e)^[k] M := by
  constructor
  · intro E
    nlinarith [Real.cos_le_one E, Real.neg_one_le_cos E]
  · exact solveKeplerGo_iterates M e 15 M

/-- Witness for C10 at `M = 0`, `e = 0`. -/
theorem kepler_solver_safety_witness :
    (0 : ℝ) ≤ 0 ∧ (0 : ℝ) ≤ 0.99 ∧
      ((∀ E : ℝ, 0.01 ≤ 1 - (0 : ℝ) * Real.cos E) ∧
        ∃ k ≤ 15, solveKepler 0 0 = (newtonStep 0 0)^[k] 0) :=
  ⟨le_refl 0, by norm_num, kepler_solver_safety 0 0 (le_refl 0) (by norm_num)⟩

/-! ### Half-angle identities used by the baseline inversion -/

theorem cos_two_arctan (t : ℝ) :
    Real.cos (2 * Real.arctan t) = (1 - t ^ 2) / (1 + t ^ 2) := by
  have h1t : (0 : ℝ) < 1 + t ^ 2 := by positivity
  have hsq : Real.sqrt (1 + t ^ 2) ^ 2 = 1 + t ^ 2 := Real.sq_sqrt h1t.le
  rw [Real.cos_two_mul, Real.cos_arctan, div_pow, one_pow, hsq]
  field_simp
  ring

theorem sin_two_arctan (t : ℝ) :
    Real.sin (2 * Real.arctan t) = 2 * t / (1 + t ^ 2) := by
  have h1t : (0 : ℝ) < 1 + t ^ 2 := by positivity
  have hsq : Real.sqrt (1 + t ^ 2) * Real.sqrt (1 + t ^ 2) = 1 + t ^ 2 :=
    Real.mul_self_sqrt h1t.le
  rw [Real.sin_two_mul, Real.sin_arctan, Real.cos_arctan, mul_assoc,
    div_mul_div_comm, mul_one, hsq, mul_div_assoc]

/-- Inverting the conic at angle theta and Kepler at the matching
eccentric anomaly returns the encounter direction exactly: the perifocal
coordinates recover `cos theta` and `sin theta`. -/
theorem intercept_position (θ e : ℝ) (hc : Real.cos (θ / 2) ≠ 0)
    (he0 : 0 ≤ e) (he1 : e ≤ 0.75) :
    1 * (1 + e * Real.cos θ) / (1 - e * e)
        * (Real.cos (2 * Real.arctan (Real.tan (θ / 2) * Real.sqrt ((1 - e) / (1 + e)))) - e)
      = Real.cos θ ∧
    1 * (1 + e * Real.cos θ) / (1 - e * e)
        * (Real.sqrt (1 - e * e)
          * Real.sin (2 * Real.arctan (Real.tan (θ / 2) * Real.sqrt ((1 - e) / (1 + e)))))
      = Real.sin θ := by
  set c := Real.cos (θ / 2) with hcdef
  set S := Real.sin (θ / 2) with hSdef
  have hpy : S ^ 2 + c ^ 2 = 1 := Real.sin_sq_add_cos_sq _
  have hS2 : S ^ 2 = 1 - c ^ 2 := by linarith
  have h1me : (0 : ℝ) < 1 - e := by linarith
  have h1pe : (0 : ℝ) < 1 + e := by linarith
  have he2 : (0 : ℝ) < 1 - e * e := by nlinarith
  set s := Real.sqrt ((1 - e) / (1 + e)) with hsdef
  have hs2 : s ^ 2 = (1 - e) / (1 + e) :=
    Real.sq_sqrt (le_of_lt (div_pos h1me h1pe))
  have hsnn : 0 ≤ s := Real.sqrt_nonneg _
  have hsqrt1e : Real.sqrt (1 - e * e) = s * (1 + e) := by
    have hsq : (s * (1 + e)) ^ 2 = 1 - e * e := by
      rw [mul_pow, hs2]
      field_simp
      ring
    rw [← hsq, Real.sqrt_sq (by positivity)]
  have htan : Real.tan (θ / 2) = S / c := Real.tan_eq_sin_div_cos _
  set t := Real.tan (θ / 2) * s with htdef
  have ht2 : t ^ 2 = (1 - c ^ 2) * (1 - e) / (c ^ 2 * (1 + e)) := by
    rw [htdef, mul_pow, htan, div_pow, hs2, div_mul_div_comm, hS2]
  have hθc : Real.cos θ = 2 * c ^ 2 - 1 := by
    have h := Real.cos_two_mul (θ / 2)
    rw [show 2 * (θ / 2) = θ from by ring] at h
    exact h
  have hθs : Real.sin θ = 2 * S * c := by
    have h := Real.sin_two_mul (θ / 2)
    rw [show 2 * (θ / 2) = θ from by ring] at h
    rw [h]
  have hc2 : (0 : ℝ) < c ^ 2 := by positivity
  have hQ : (0 : ℝ) < 1 - e + 2 * e * c ^ 2 := by nlinarith [sq_nonneg c]
  have hst : s * t = S / c * ((1 - e) / (1 + e)) := by
    calc s * t = Real.tan (θ / 2) * s ^ 2 := by rw [htdef]; ring
    _ = S / c * ((1 - e) / (1 + e)) := by rw [htan, hs2]
  have hdenom : 1 + t ^ 2 = (1 - e + 2 * e * c ^ 2) / (c ^ 2 * (1 + e)) := by
    rw [ht2]
    field_simp
    ring
  have hcd : (0 : ℝ) < c ^ 2 * (1 + e) := by positivity
  constructor
  · rw [cos_two_arctan, ht2, hθc]
    have hXnum : 1 - (1 - c ^ 2) * (1 - e) / (c ^ 2 * (1 + e))
        = (2 * c ^ 2 - 1 + e) / (c ^ 2 * (1 + e)) := by
      field_simp
      ring
    have hXden : 1 + (1 - c ^ 2) * (1 - e) / (c ^ 2 * (1 + e))
        = (1 - e + 2 * e * c ^ 2) / (c ^ 2 * (1 + e)) := by
      field_simp
      ring
    rw [hXnum, hXden, div_div_eq_mul_div, div_mul_cancel₀ _ (ne_of_gt hcd)]
    have hsub : (2 * c ^ 2 - 1 + e) / (1 - e + 2 * e * c ^ 2) - e
        = (2 * c ^ 2 - 1) * (1 - e * e) / (1 - e + 2 * e * c ^ 2) := by
      field_simp
      ring
    rw [hsub, show (1 : ℝ) * (1 + e * (2 * c ^ 2 - 1)) = 1 - e + 2 * e * c ^ 2
      from by ring]
    field_simp
    ring
  · have key : s * (1 + e) * (2 * t) * (c ^ 2 * (1 + e))
        = 2 * S * c * (1 - e) * (1 + e) := by
      rw [show s * (1 + e) * (2 * t) * (c ^ 2 * (1 + e))
          = 2 * (1 + e) ^ 2 * c ^ 2 * (s * t) from by ring, hst]
      field_simp
      ring
    have hstep : s * (1 + e) * (2 * t / (1 + t ^ 2))
        = 2 * S * c * (1 - e) * (1 + e) / (1 - e + 2 * e * c ^ 2) := by
      rw [hdenom, div_div_eq_mul_div]
      rw [show s * (1 + e) * (2 * t * (c ^ 2 * (1 + e)) / (1 - e + 2 * e * c ^ 2))
          = s * (1 + e) * (2 * t) * (c ^ 2 * (1 + e)) / (1 - e + 2 * e * c ^ 2)
          from by ring]
      rw [key]
    rw [sin_two_arctan, hsqrt1e, hθs, hθc, hstep]
    rw [show (1 : ℝ) * (1 + e * (2 * c ^ 2 - 1)) = 1 - e + 2 * e * c ^ 2 from by ring]
    field_simp
    ring

/-! ### Baseline (pre-maneuver) orbit construction -/

namespace Baseline

/-- Eccentricity heuristic of the synthetic asteroid orbit. -/
noncomputable def ecc (velKps : ℝ) : ℝ := eccFromVel velKps

/-- Encounter angle of the model Earth at the end of the scenario. -/
noncomputable def thetaImpact (totalDays : ℝ) : ℝ := earthAngleAt totalDays

/-- Semi-major axis from inverting the polar conic equation at the
encounter angle: `aAU = (1 * (1 + e cos theta)) / (1 - e^2)`. -/
noncomputable def aAU (totalDays velKps : ℝ) : ℝ :=
  1 * (1 + ecc velKps * Real.cos (thetaImpact totalDays))
    / (1 - ecc velKps * ecc velKps)

/-- Mean motion scaled from the model Earth: `N_EARTH / a^1.5`. -/
noncomputable def nImp (totalDays velKps : ℝ) : ℝ :=
  N_EARTH / aAU totalDays velKps ^ (1.5 : ℝ)

/-- The factor `sqrt((1 - e)/(1 + e))` of the half-angle inversion. -/
noncomputable def sFac (velKps : ℝ) : ℝ :=
  Real.sqrt ((1 - ecc velKps) / (1 + ecc velKps))

/-- Eccentric anomaly at encounter from the half-angle inversion. -/
noncomputable def Eimp (totalDays velKps : ℝ) : ℝ :=
  2 * Real.arctan (Real.tan (thetaImpact totalDays / 2) * sFac velKps)

/-- Mean anomaly at encounter via the Kepler equation. -/
noncomputable def Mimp (totalDays velKps : ℝ) : ℝ :=
  Eimp totalDays velKps - ecc velKps * Real.sin (Eimp totalDays velKps)

/-- Initial mean anomaly in degrees, phased so that propagation by
`totalDays` reaches `Mimp`. -/
noncomputable def M0deg (totalDays velKps : ℝ) : ℝ :=
  (Mimp totalDays velKps - nImp totalDays velKps * totalDays) * 180 / Real.pi

end Baseline

/-- C3: the baseline orbit construction is an exact intercept: the conic
radius at the encounter angle is exactly 1 AU, the initial mean anomaly
propagated by the total elapsed days returns exactly the encounter mean
anomaly, and the position computed from the encounter eccentric anomaly
is exactly the position of the model Earth at the encounter angle, so the
undeflected scenario has zero miss distance. -/
theorem baseline_intercept_exact (T v : ℝ)
    (hb : Real.cos (Baseline.thetaImpact T / 2) ≠ 0) :
    radialFromEllipse (Baseline.aAU T v) (Baseline.ecc v) (Baseline.thetaImpact T) = 1 ∧
      Baseline.M0deg T v + Baseline.nImp T v * 180 / Real.pi * T
        = Baseline.Mimp T v * 180 / Real.pi ∧
      (posFromElementsE (Baseline.aAU T v) (Baseline.ecc v) 0 0 0 (Baseline.Eimp T v)).x
        = Real.cos (Baseline.thetaImpact T) * AU_TO_SCENE ∧
      (posFromElementsE (Baseline.aAU T v) (Baseline.ecc v) 0 0 0 (Baseline.Eimp T v)).y
        = Real.sin (Baseline.thetaImpact T) * AU_TO_SCENE ∧
      (posFromElementsE (Baseline.aAU T v) (Baseline.ecc v) 0 0 0 (Baseline.Eimp T v)).z
        = 0 ∧
      sceneDist (posFromElementsE (Baseline.aAU T v) (Baseline.ecc v) 0 0 0 (Baseline.Eimp T v))
          (Real.cos (Baseline.thetaImpact T) * AU_TO_SCENE)
          (Real.sin (Baseline.thetaImpact T) * AU_TO_SCENE) 0 = 0 := by
  have he0 : (0.05 : ℝ) ≤ Baseline.ecc v := eccFromVel_lower v
  have he1 : Baseline.ecc v ≤ 0.75 := eccFromVel_upper v
  have he0x : (0 : ℝ) ≤ Baseline.ecc v := by linarith
  have he1x : Baseline.ecc v < 1 := by linarith
  set e := Baseline.ecc v with hedef
  set θ := Baseline.thetaImpact T with hθdef
  have he2 : (0 : ℝ) < 1 - e * e := by nlinarith
  have hconic : (0 : ℝ) < 1 + e * Real.cos θ := by
    nlinarith [Real.neg_one_le_cos θ, Real.cos_le_one θ]
  obtain ⟨hx1, hy1⟩ := intercept_position θ e hb he0x he1
  have hEdef : Baseline.Eimp T v
      = 2 * Real.arctan (Real.tan (θ / 2) * Real.sqrt ((1 - e) / (1 + e))) := rfl
  have hadef : Baseline.aAU T v = 1 * (1 + e * Real.cos θ) / (1 - e * e) := rfl
  set Eimp := Baseline.Eimp T v with hEimpdef
  have hrad : radialFromEllipse (Baseline.aAU T v) e θ = 1 := by
    rw [radialFromEllipse, hadef]
    field_simp
  have hM0 : Baseline.M0deg T v + Baseline.nImp T v * 180 / Real.pi * T
      = Baseline.Mimp T v * 180 / Real.pi := by
    rw [Baseline.M0deg]
    ring
  have hposx : (posFromElementsE (Baseline.aAU T v) e 0 0 0 Eimp).x
      = Real.cos θ * AU_TO_SCENE := by
    rw [posE_planar_x, cos_nuFromE e Eimp he0x he1x]
    have hne := (one_sub_ecos_pos e Eimp he0x he1x).ne'
    have hmul : Baseline.aAU T v * (1 - e * Real.cos Eimp)
        * ((Real.cos Eimp - e) / (1 - e * Real.cos Eimp))
        = Baseline.aAU T v * (Real.cos Eimp - e) := by
      field_simp
      ring
    rw [hmul, hadef, hEdef, hx1]
  have hposy : (posFromElementsE (Baseline.aAU T v) e 0 0 0 Eimp).y
      = Real.sin θ * AU_TO_SCENE := by
    rw [posE_planar_y, sin_nuFromE e Eimp he0x he1x]
    have hne := (one_sub_ecos_pos e Eimp he0x he1x).ne'
    have hmul : Baseline.aAU T v * (1 - e * Real.cos Eimp)
        * (Real.sqrt (1 - e * e) * Real.sin Eimp / (1 - e * Real.cos Eimp))
        = Baseline.aAU T v * (Real.sqrt (1 - e * e) * Real.sin Eimp) := by
      field_simp
      ring
    rw [hmul, hadef, hEdef, hy1]
  have hposz : (posFromElementsE (Baseline.aAU T v) e 0 0 0 Eimp).z = 0 :=
    posE_planar_z _ _ _
  refine ⟨hrad, hM0, hposx, hposy, hposz, ?_⟩
  rw [sceneDist, hposx, hposy, hposz]
  simp

/-- Witness for C3 at the default one-year encounter with the default
asteroid speed of 22 km/s. -/
theorem baseline_intercept_exact_witness :
    Real.cos (Baseline.thetaImpact 365.25 / 2) ≠ 0 ∧
      radialFromEllipse (Baseline.aAU 365.25 22) (Baseline.ecc 22)
        (Baseline.thetaImpact 365.25) = 1 := by
  have hth : Baseline.thetaImpact 365.25 = 2 * Real.pi := by
    rw [Baseline.thetaImpact, earthAngleAt, N_EARTH, EARTH_PERIOD_DAYS]
    field_simp
  have hb : Real.cos (Baseline.thetaImpact 365.25 / 2) ≠ 0 := by
    rw [hth, show 2 * Real.pi / 2 = Real.pi from by ring, Real.cos_pi]
    norm_num
  exact ⟨hb, (baseline_intercept_exact 365.25 22 hb).1⟩

/-! ### DeflectionLab3D scenario model -/

namespace Deflection

/-- The scenario parameters of the deflection lab: encounter time,
asteroid sliders, impactor sliders, visual gain, and the optional mass
carried over from the impact lab. -/
structure Inputs where
  years : ℝ
  months : ℝ
  days : ℝ
  diameterKm : ℝ
  density : ℝ
  speedKps : ℝ
  impactorMassKg : ℝ
  impactorRelSpeedKps : ℝ
  beta : ℝ
  phiDeg : ℝ
  burnDays : ℝ
  visGain : ℝ
  carryMassKg : Option ℝ

/-- Total days to encounter, floored at one hour. -/
noncomputable def totalDays (P : Inputs) : ℝ :=
  max (1 / 24) (toMillis P.years P.months P.days / 86400000)

/-- Burn lead time clamped into the scenario window. -/
noncomputable def burnDays (P : Inputs) : ℝ :=
  clamp P.burnDays 0 (totalDays P - 1e-3)

/-- Elapsed days from scenario start to the burn instant. -/
noncomputable def dBurn (P : Inputs) : ℝ := totalDays P - burnDays P

/-- Encounter angle of the model Earth. -/
noncomputable def thetaImpact (P : Inputs) : ℝ := earthAngleAt (totalDays P)

/-- Pre-burn orbit eccentricity from the speed heuristic. -/
noncomputable def e0 (P : Inputs) : ℝ := eccFromVel P.speedKps

/-- Pre-burn semi-major axis from inverting the conic at the encounter
angle. -/
noncomputable def a0AU (P : Inputs) : ℝ :=
  1 * (1 + e0 P * Real.cos (thetaImpact P)) / (1 - e0 P * e0 P)

/-- Pre-burn mean motion. -/
noncomputable def n0 (P : Inputs) : ℝ := N_EARTH / a0AU P ^ (1.5 : ℝ)

/-- The factor `sqrt((1 - e0)/(1 + e0))`. -/
noncomputable def sFac (P : Inputs) : ℝ :=
  Real.sqrt ((1 - e0 P) / (1 + e0 P))

/-- Eccentric anomaly of the encounter from the half-angle inversion. -/
noncomputable def Eimp (P : Inputs) : ℝ :=
  2 * Real.arctan (Real.tan (thetaImpact P / 2) * sFac P)

/-- Mean anomaly of the encounter. -/
noncomputable def Mimp (P : Inputs) : ℝ :=
  Eimp P - e0 P * Real.sin (Eimp P)

/-- Initial mean anomaly in degrees. -/
noncomputable def M0deg (P : Inputs) : ℝ :=
  (Mimp P - n0 P * totalDays P) * 180 / Real.pi

/-- Asteroid mass: the carried-over mass if present, otherwise the
sphere-volume mass from the sliders. -/
noncomputable def massAstKg (P : Inputs) : ℝ :=
  (P.carryMassKg).getD (massFromDiameter P.diameterKm P.density)

/-- True impulsive speed change `beta * m * v / max(1, massAst)`,
in km/s. -/
noncomputable def deltaVTrue (P : Inputs) : ℝ :=
  P.beta * P.impactorMassKg * P.impactorRelSpeedKps / max 1 (massAstKg P)

/-- Tangential component of the speed change. -/
noncomputable def deltaVTangent (P : Inputs) : ℝ :=
  deltaVTrue P * Real.cos (P.phiDeg * DEG)

/-- True fractional orbit-shape change (linearized), clamped. -/
noncomputable def fracTrue (P : Inputs) : ℝ :=
  clamp (2 * (deltaVTangent P / max 0.1 P.speedKps)) (-0.5) 0.5

/-- Visually gained fractional change, clamped again. -/
noncomputable def fracVis (P : Inputs) : ℝ :=
  clamp (fracTrue P * clamp P.visGain 1 1000) (-0.5) 0.5

/-- Post-burn semi-major axis. -/
noncomputable def a1AU (P : Inputs) : ℝ := a0AU P * (1 + fracVis P)

/-- Post-burn eccentricity. -/
noncomputable def e1 (P : Inputs) : ℝ := clamp (e0 P) 0.01 0.95

/-- Post-burn mean motion. -/
noncomputable def n1 (P : Inputs) : ℝ := N_EARTH / a1AU P ^ (1.5 : ℝ)

/-- Mean anomaly in degrees on the pre-burn orbit at the burn instant. -/
noncomputable def MdegBurn (P : Inputs) : ℝ :=
  M0deg P + n0 P * 180 / Real.pi * dBurn P

/-- Position at the burn instant on the pre-burn orbit. -/
noncomputable def pBurn (P : Inputs) : ScenePos :=
  posFromElements (a0AU P) (e0 P) 0 0 0 (MdegBurn P)

/-- True anomaly at the burn instant. -/
noncomputable def nuBurn (P : Inputs) : ℝ := (pBurn P).nu

/-- Eccentric anomaly at the burn instant on the post-burn basis. -/
noncomputable def E1 (P : Inputs) : ℝ :=
  2 * Real.arctan (Real.tan (nuBurn P / 2) * Real.sqrt ((1 - e1 P) / (1 + e1 P)))

/-- Mean anomaly at the burn instant on the post-burn orbit. -/
noncomputable def M1burn (P : Inputs) : ℝ :=
  E1 P - e1 P * Real.sin (E1 P)

/-- Initial mean anomaly in degrees of the post-burn orbit, phased to
the burn instant. -/
noncomputable def M0deg1 (P : Inputs) : ℝ :=
  M1burn P * 180 / Real.pi - n1 P * 180 / Real.pi * dBurn P

/-- The branch of the piecewise sampler taken before the burn time. -/
noncomputable def preBurnPos (P : Inputs) (d : ℝ) : ScenePos :=
  posFromElements (a0AU P) (e0 P) 0 0 0 (M0deg P + n0 P * 180 / Real.pi * d)

/-- The branch of the piecewise sampler taken after the burn time. -/
noncomputable def postBurnPos (P : Inputs) (d : ℝ) : ScenePos :=
  posFromElements (a1AU P) (e1 P) 0 0 0 (M0deg1 P + n1 P * 180 / Real.pi * d)

end Deflection

theorem posFromElements_Mzero (a e : ℝ) :
    posFromElements a e 0 0 0 0 = posFromElementsE a e 0 0 0 0 := by
  unfold posFromElements
  rw [zero_mul, solveKepler_zero]

theorem nuFromE_zero (e : ℝ) (he : e < 1) : nuFromE e 0 = 0 := by
  unfold nuFromE
  rw [Real.sin_zero, mul_zero, Real.cos_zero]
  exact atan2_zero_pos 0 (1 - e) rfl (by linarith)

namespace Deflection

theorem totalDays_one_year (P : Inputs) (hy : P.years = 1) (hm : P.months = 0)
    (hd : P.days = 0) : totalDays P = 365.25 := by
  unfold totalDays toMillis
  rw [hy, hm, hd]
  rw [show ((1 : ℝ) * 365.25 + 0 * 30 + 0) * 86400000 / 86400000 = 365.25 from by norm_num]
  exact max_eq_right (by norm_num)

theorem theta_two_pi (P : Inputs) (ht : totalDays P = 365.25) :
    thetaImpact P = 2 * Real.pi := by
  unfold thetaImpact earthAngleAt N_EARTH EARTH_PERIOD_DAYS
  rw [ht]
  rw [div_mul_cancel₀ _ (by norm_num : (365.25 : ℝ) ≠ 0)]

theorem burnDays_zero (P : Inputs) (hb : P.burnDays ≤ 0)
    (ht : totalDays P = 365.25) : burnDays P = 0 := by
  unfold burnDays clamp
  rw [ht]
  rw [min_eq_right (by linarith : P.burnDays ≤ (365.25 : ℝ) - 1e-3)]
  exact max_eq_left hb

theorem Eimp_zero (P : Inputs) (hθ : thetaImpact P = 2 * Real.pi) :
    Eimp P = 0 := by
  unfold Eimp
  rw [hθ, show (2 : ℝ) * Real.pi / 2 = Real.pi from by ring, Real.tan_pi,
    zero_mul, Real.arctan_zero, mul_zero]

theorem Mimp_zero (P : Inputs) (hE : Eimp P = 0) : Mimp P = 0 := by
  unfold Mimp
  rw [hE]
  simp

theorem MdegBurn_zero (P : Inputs) (hdB : dBurn P = totalDays P)
    (hM : Mimp P = 0) : MdegBurn P = 0 := by
  unfold MdegBurn M0deg
  rw [hdB, hM]
  ring

/-- At a one-year encounter with the burn at the encounter instant, the
two branches of the piecewise sampler evaluate at the burn boundary to
positions whose distance is exactly `|fracVis| * AU_TO_SCENE`: the
pre-burn branch sits at radius 1 AU on the positive x axis and the
post-burn branch at radius `1 + fracVis`. -/
theorem burn_boundary_core (P : Inputs) (hy : P.years = 1) (hm : P.months = 0)
    (hd : P.days = 0) (hb : P.burnDays ≤ 0) :
    (preBurnPos P (dBurn P)).x = AU_TO_SCENE ∧
      (preBurnPos P (dBurn P)).y = 0 ∧
      (preBurnPos P (dBurn P)).z = 0 ∧
      (postBurnPos P (dBurn P)).x = (1 + fracVis P) * AU_TO_SCENE ∧
      (postBurnPos P (dBurn P)).y = 0 ∧
      (postBurnPos P (dBurn P)).z = 0 ∧
      sceneDist (postBurnPos P (dBurn P)) (preBurnPos P (dBurn P)).x
          (preBurnPos P (dBurn P)).y (preBurnPos P (dBurn P)).z
        = |fracVis P| * AU_TO_SCENE := by
  have he05 : (0.05 : ℝ) ≤ e0 P := eccFromVel_lower _
  have he75 : e0 P ≤ 0.75 := eccFromVel_upper _
  have he0x : (0 : ℝ) ≤ e0 P := by linarith
  have he1x : e0 P < 1 := by linarith
  have he2 : 1 - e0 P * e0 P ≠ 0 := by nlinarith
  have ht := totalDays_one_year P hy hm hd
  have hθ := theta_two_pi P ht
  have hbz := burnDays_zero P hb ht
  have hdB : dBurn P = totalDays P := by unfold dBurn; rw [hbz]; ring
  have hE := Eimp_zero P hθ
  have hM := Mimp_zero P hE
  have hMdB := MdegBurn_zero P hdB hM
  have he1e : e1 P = e0 P := clamp_eq_self _ _ _ (by linarith) (by linarith)
  have ha0m : a0AU P * (1 - e0 P) = 1 := by
    unfold a0AU
    rw [hθ, Real.cos_two_pi]
    field_simp
    ring
  have hpre : preBurnPos P (dBurn P) = posFromElementsE (a0AU P) (e0 P) 0 0 0 0 := by
    unfold preBurnPos
    rw [show M0deg P + n0 P * 180 / Real.pi * dBurn P = MdegBurn P from rfl, hMdB]
    exact posFromElements_Mzero _ _
  have hnu0 : nuFromE (e0 P) 0 = 0 := nuFromE_zero _ he1x
  have hprex : (preBurnPos P (dBurn P)).x = AU_TO_SCENE := by
    rw [hpre, posE_planar_x, hnu0, Real.cos_zero]
    linear_combination AU_TO_SCENE * ha0m
  have hprey : (preBurnPos P (dBurn P)).y = 0 := by
    rw [hpre, posE_planar_y, hnu0, Real.sin_zero]
    ring
  have hprez : (preBurnPos P (dBurn P)).z = 0 := by
    rw [hpre]
    exact posE_planar_z _ _ _
  have hnuB : nuBurn P = 0 := by
    unfold nuBurn pBurn
    rw [hMdB, posFromElements_Mzero, posE_nu]
    exact hnu0
  have hE1 : E1 P = 0 := by
    unfold E1
    rw [hnuB, zero_div, Real.tan_zero, zero_mul, Real.arctan_zero, mul_zero]
  have hM1 : M1burn P = 0 := by
    unfold M1burn
    rw [hE1, Real.sin_zero]
    ring
  have hpost : postBurnPos P (dBurn P) = posFromElementsE (a1AU P) (e1 P) 0 0 0 0 := by
    unfold postBurnPos
    rw [show M0deg1 P + n1 P * 180 / Real.pi * dBurn P = M1burn P * 180 / Real.pi
      from by unfold M0deg1; ring, hM1]
    rw [show (0 : ℝ) * 180 / Real.pi = 0 from by ring]
    exact posFromElements_Mzero _ _
  have he1lt : e1 P < 1 := by rw [he1e]; exact he1x
  have hnu1 : nuFromE (e1 P) 0 = 0 := nuFromE_zero _ he1lt
  have hpostx : (postBurnPos P (dBurn P)).x = (1 + fracVis P) * AU_TO_SCENE := by
    rw [hpost, posE_planar_x, hnu1, Real.cos_zero, he1e]
    unfold a1AU
    linear_combination AU_TO_SCENE * (1 + fracVis P) * ha0m
  have hposty : (postBurnPos P (dBurn P)).y = 0 := by
    rw [hpost, posE_planar_y, hnu1, Real.sin_zero]
    ring
  have hpostz : (postBurnPos P (dBurn P)).z = 0 := by
    rw [hpost]
    exact posE_planar_z _ _ _
  refine ⟨hprex, hprey, hprez, hpostx, hposty, hpostz, ?_⟩
  rw [sceneDist, hprex, hprey, hprez, hpostx, hposty, hpostz]
  rw [show (1 + fracVis P) * AU_TO_SCENE - AU_TO_SCENE = fracVis P * AU_TO_SCENE
    from by ring]
  rw [show ((0 : ℝ) - 0) = 0 from by ring]
  rw [show (fracVis P * AU_TO_SCENE) ^ 2 + (0 : ℝ) ^ 2 + (0 : ℝ) ^ 2
      = (fracVis P * AU_TO_SCENE) ^ 2 from by ring]
  rw [Real.sqrt_sq_eq_abs, abs_mul]
  rw [show |AU_TO_SCENE| = AU_TO_SCENE from abs_of_pos (by norm_num [AU_TO_SCENE])]

/-- A concrete parameter set with every slider inside its UI range:
one-year encounter, 50 km diameter, density 1000, speed 5 km/s, impactor
mass 1e7 kg, relative speed 20 km/s, beta 3, phi 0, burn lead 0 days,
visual gain 1000, no carried-over mass. -/
def P0 : Inputs :=
  ⟨1, 0, 0, 50, 1000, 5, 10000000, 20, 3, 0, 0, 1000, none⟩

theorem massAst_P0 : massAstKg P0 = Real.pi * 62500000000000000 / 3 := by
  unfold massAstKg
  rw [show P0.carryMassKg = none from rfl, Option.getD_none]
  unfold massFromDiameter
  rw [show P0.diameterKm = (50 : ℝ) from rfl, show P0.density = (1000 : ℝ) from rfl]
  norm_num
  ring

theorem one_le_massAst_P0 : (1 : ℝ) ≤ massAstKg P0 := by
  rw [massAst_P0]
  nlinarith [Real.pi_gt_three]

theorem deltaVTrue_P0 : deltaVTrue P0 = 2.88e-8 / Real.pi := by
  unfold deltaVTrue
  rw [max_eq_right one_le_massAst_P0, massAst_P0]
  rw [show P0.beta = (3 : ℝ) from rfl, show P0.impactorMassKg = (10000000 : ℝ) from rfl,
    show P0.impactorRelSpeedKps = (20 : ℝ) from rfl]
  have hpi := Real.pi_ne_zero
  field_simp
  ring

theorem deltaVTangent_P0 : deltaVTangent P0 = deltaVTrue P0 := by
  unfold deltaVTangent
  rw [show P0.phiDeg = (0 : ℝ) from rfl, zero_mul, Real.cos_zero, mul_one]

theorem fracTrue_P0 : fracTrue P0 = 1.152e-8 / Real.pi := by
  unfold fracTrue
  rw [deltaVTangent_P0, deltaVTrue_P0, show P0.speedKps = (5 : ℝ) from rfl]
  rw [max_eq_right (by norm_num : (0.1 : ℝ) ≤ 5)]
  rw [show 2 * (2.88e-8 / Real.pi / 5) = 1.152e-8 / Real.pi from by
    field_simp
    ring]
  apply clamp_eq_self
  · have hp : (0 : ℝ) < 1.152e-8 / Real.pi := by positivity
    linarith
  · rw [div_le_iff₀ Real.pi_pos]
    nlinarith [Real.pi_gt_three]

theorem fracVis_P0 : fracVis P0 = 1.152e-5 / Real.pi := by
  unfold fracVis
  rw [fracTrue_P0, show P0.visGain = (1000 : ℝ) from rfl]
  rw [clamp_eq_self 1000 1 1000 (by norm_num) (by norm_num)]
  rw [show 1.152e-8 / Real.pi * 1000 = 1.152e-5 / Real.pi from by
    rw [div_mul_eq_mul_div]
    norm_num]
  apply clamp_eq_self
  · have hp : (0 : ℝ) < 1.152e-5 / Real.pi := by positivity
    linarith
  · rw [div_le_iff₀ Real.pi_pos]
    nlinarith [Real.pi_gt_three]

/-- C2 (amended): at the burn boundary the pre-burn and post-burn
branches of the piecewise sampler differ by exactly
`|fracVis| * AU_TO_SCENE` scene units (shown for the one-year encounter
with the burn at the encounter instant): the boundary positions agree
within 1 scene metre only when that radial jump is at most 1, and they
coincide exactly when `fracVis = 0`. -/
theorem deflection_burn_boundary_jump (P : Inputs) (hy : P.years = 1)
    (hm : P.months = 0) (hd : P.days = 0) (hb : P.burnDays ≤ 0) :
    sceneDist (postBurnPos P (dBurn P)) (preBurnPos P (dBurn P)).x
        (preBurnPos P (dBurn P)).y (preBurnPos P (dBurn P)).z
      = |fracVis P| * AU_TO_SCENE :=
  (burn_boundary_core P hy hm hd hb).2.2.2.2.2.2

/-- Witness for the amended C2 statement at the concrete inputs `P0`. -/
theorem deflection_burn_boundary_jump_witness :
    P0.years = 1 ∧ P0.months = 0 ∧ P0.days = 0 ∧ P0.burnDays ≤ 0 ∧
      sceneDist (postBurnPos P0 (dBurn P0)) (preBurnPos P0 (dBurn P0)).x
          (preBurnPos P0 (dBurn P0)).y (preBurnPos P0 (dBurn P0)).z
        = |fracVis P0| * AU_TO_SCENE :=
  ⟨rfl, rfl, rfl, le_refl 0,
    deflection_burn_boundary_jump P0 rfl rfl rfl (le_refl 0)⟩

/-- C2 counterexample: at the valid parameter combination `P0` the
position sampled on the pre-burn orbit at the burn boundary and the
position sampled on the post-burn orbit there are more than 1 scene
metre apart (they are about 3.67 apart), so the piecewise propagation is
not continuous at the burn boundary within 1 metre for every valid
parameter combination. -/
theorem deflection_burn_discontinuity_cex :
    1 < sceneDist (postBurnPos P0 (dBurn P0)) (preBurnPos P0 (dBurn P0)).x
        (preBurnPos P0 (dBurn P0)).y (preBurnPos P0 (dBurn P0)).z := by
  have h := (burn_boundary_core P0 rfl rfl rfl (le_refl 0)).2.2.2.2.2.2
  rw [h, fracVis_P0]
  rw [abs_of_pos (by positivity)]
  rw [show AU_TO_SCENE = (1000000 : ℝ) from rfl]
  rw [div_mul_eq_mul_div]
  rw [lt_div_iff₀ Real.pi_pos]
  nlinarith [Real.pi_lt_d2]

/-- C5: the asteroid mass defaults to the sphere-volume mass
`density * (4/3) pi (diameterKm * 500)^3`; the true speed change is
`beta * m * v / max(1, massAst)`; the tangential component multiplies by
`cos(phi)`; the fractional orbit-shape change is
`clamp(2 dvT / max(0.1, speed), -0.5, 0.5)`; and both the true and the
visually gained fractions have magnitude at most 0.5. -/
theorem deltaV_and_fraction_spec (P : Inputs) (hnone : P.carryMassKg = none) :
    massAstKg P = P.density * (4 / 3 * Real.pi * (P.diameterKm * 500) ^ 3) ∧
      deltaVTrue P = P.beta * P.impactorMassKg * P.impactorRelSpeedKps
        / max 1 (massAstKg P) ∧
      deltaVTangent P = deltaVTrue P * Real.cos (P.phiDeg * DEG) ∧
      fracTrue P = clamp (2 * deltaVTangent P / max 0.1 P.speedKps) (-0.5) 0.5 ∧
      |fracTrue P| ≤ 0.5 ∧ |fracVis P| ≤ 0.5 := by
  refine ⟨?_, rfl, rfl, ?_, ?_, ?_⟩
  · unfold massAstKg
    rw [hnone, Option.getD_none]
    unfold massFromDiameter
    ring
  · unfold fracTrue
    rw [mul_div_assoc]
  · unfold fracTrue
    rw [abs_le]
    exact ⟨le_clamp _ _ _, clamp_le _ _ _ (by norm_num)⟩
  · unfold fracVis
    rw [abs_le]
    exact ⟨le_clamp _ _ _, clamp_le _ _ _ (by norm_num)⟩

/-- Witness for C5 at the concrete inputs `P0`. -/
theorem deltaV_and_fraction_spec_witness :
    P0.carryMassKg = none ∧
      (massAstKg P0 = P0.density * (4 / 3 * Real.pi * (P0.diameterKm * 500) ^ 3) ∧
        deltaVTrue P0 = P0.beta * P0.impactorMassKg * P0.impactorRelSpeedKps
          / max 1 (massAstKg P0) ∧
        deltaVTangent P0 = deltaVTrue P0 * Real.cos (P0.phiDeg * DEG) ∧
        fracTrue P0 = clamp (2 * deltaVTangent P0 / max 0.1 P0.speedKps) (-0.5) 0.5 ∧
        |fracTrue P0| ≤ 0.5 ∧ |fracVis P0| ≤ 0.5) :=
  ⟨rfl, deltaV_and_fraction_spec P0 rfl⟩

end Deflection

end MeteorMadness
